import Mathlib

/-!
# thermocouple.h : sensor models, validity envelopes and range checks

A shallow embedding of `libraries/thermocouple/thermocouple.h`.

* `FLOAT` (C `float`) is idealised as the exact rationals; every constant that
  occurs in the header (0, 32, 1.8, 230, 329, 400, 733, 1111, 2000) is read as
  its exact decimal value.
* The header declares the classes; the bodies of the non-inline member
  functions and the contents of the PROGMEM tables live in `thermocouple.cpp`.
  Whatever is taken from there is either a parameter (table cells, the Pt100
  constants) or a definition marked `Modelled from the spec:`.
* A C++ object with virtual methods is a record of its methods (`tcBase`);
  `tcLinear` and `typePt` supply such a record through `toBase`. For `typeK`,
  `typeT` and `typeJ` the header fixes the shapes of the tables, the indices
  the envelope accessors read and the flag; those are embedded as such.
* `tcBase` declares a data member `bool CJC` and every derived class declares
  a member `CJC` of its own, which hides it. The two are kept apart: the
  derived member is the constant of its initialiser, the base member is an
  argument of the one base function that reads it.
-/

namespace Thermocouple

/-! ## Scalars and unit conversion macros -/

/-- Header line `typedef float FLOAT;`, idealised as exact rationals. -/
abbrev FLOAT := ℚ

/-- Header line `typedef float PFLOAT;` (a FLOAT stored in program memory). -/
abbrev PFLOAT := ℚ

/-- Macro `C_TO_F(x)`, expanding to `( 1.8 * x + 32.0 )`. -/
def C_TO_F (x : FLOAT) : FLOAT := 1.8 * x + 32.0

/-- Macro `F_TO_C(x)`, expanding to `( ( x - 32.0 ) / 1.8 )`. -/
def F_TO_C (x : FLOAT) : FLOAT := (x - 32.0) / 1.8

/-- Usual arithmetic conversion of a C++ `bool` operand: `true` is 1, `false` is 0. -/
def ofBool (b : Bool) : FLOAT := if b then 1 else 0

/-! ## The base class -/

/-- Class `tcBase` seen through its virtual methods: the four pure-virtual
envelope accessors and the two pure-virtual conversion hooks, as a record. Its
data member `bool CJC` is written by no line of the header (the constructor
`tcBase()` is defined in thermocouple.cpp); `Temp_C`, which reads it, takes its
value as an argument. -/
structure tcBase where
  mv_min : FLOAT
  mv_max : FLOAT
  C_max : FLOAT
  C_min : FLOAT
  absTemp_C : FLOAT → FLOAT
  absMV_C : FLOAT → FLOAT

namespace tcBase

/-- Modelled from the spec: the body of `tcBase::inrange_mV` (declared in the
header, defined in thermocouple.cpp). Membership in the inclusive envelope
`[mv_min(), mv_max()]`. -/
def inrange_mV (tc : tcBase) (mV : FLOAT) : Bool :=
  decide (tc.mv_min ≤ mV) && decide (mV ≤ tc.mv_max)

/-- Modelled from the spec: the body of `tcBase::inrange_C` (declared in the
header, defined in thermocouple.cpp). Membership in the inclusive envelope
`[C_min(), C_max()]`. -/
def inrange_C (tc : tcBase) (tempC : FLOAT) : Bool :=
  decide (tc.C_min ≤ tempC) && decide (tempC ≤ tc.C_max)

/-- Inline member of the header:
`bool inrange_F( FLOAT tempF ){return inrange_C( F_TO_C( inrange_C( tempF ) ) );}`.
The macro argument is the `bool` returned by the inner `inrange_C( tempF )`. -/
def inrange_F (tc : tcBase) (tempF : FLOAT) : Bool :=
  tc.inrange_C (F_TO_C (ofBool (tc.inrange_C tempF)))

/-- Modelled from the spec: the body of `tcBase::Temp_C( mV, coldC = 0 )`
(declared in the header, defined in thermocouple.cpp). `CJC` is the value of
the data member `tcBase::CJC`. With the flag set, the cold-junction
temperature is converted to a voltage, added to the reading and the sum is
passed to `absTemp_C`; with the flag clear the reference is ignored. -/
def Temp_C (tc : tcBase) (CJC : Bool) (mV : FLOAT) (coldC : FLOAT) : FLOAT :=
  if CJC then tc.absTemp_C (mV + tc.absMV_C coldC) else tc.absTemp_C mV

end tcBase

/-! ## tcLinear : basic linear approximation -/

/-- Class `tcLinear`: its only data member besides the flag is `FLOAT slope`.
Modelled from the spec: the constructor `tcLinear( FLOAT mVperC )` (defined in
thermocouple.cpp) stores its argument as the slope, so `tcLinear.mk mVperC` is
the constructed object. -/
structure tcLinear where
  slope : FLOAT

namespace tcLinear

/-- Inline `virtual FLOAT mv_min(){ return 0; }`. -/
def mv_min (_ : tcLinear) : FLOAT := 0

/-- Inline `virtual FLOAT mv_max(){ return 2000.00; }`. -/
def mv_max (_ : tcLinear) : FLOAT := 2000.00

/-- Inline `virtual FLOAT C_max() { return 400.00; }`. -/
def C_max (_ : tcLinear) : FLOAT := 400.00

/-- Inline `virtual FLOAT C_min() { return 0; }`. -/
def C_min (_ : tcLinear) : FLOAT := 0

/-- Private member `bool CJC = false;` of `tcLinear`: the value of its
initialiser. It hides `tcBase::CJC` and is a different member. -/
def CJC (_ : tcLinear) : Bool := false

/-- Modelled from the spec: the body of `tcLinear::absTemp_C` (declared in the
header, defined in thermocouple.cpp): the reading divided by the slope. -/
def absTemp_C (l : tcLinear) (mV : FLOAT) : FLOAT := mV / l.slope

/-- Modelled from the spec: the body of `tcLinear::absMV_C` (declared in the
header, defined in thermocouple.cpp): the temperature times the slope. -/
def absMV_C (l : tcLinear) (C : FLOAT) : FLOAT := C * l.slope

/-- The object seen through its base class: the overriding virtual methods. -/
def toBase (l : tcLinear) : tcBase :=
  { mv_min := l.mv_min, mv_max := l.mv_max, C_max := l.C_max, C_min := l.C_min,
    absTemp_C := l.absTemp_C, absMV_C := l.absMV_C }

end tcLinear

/-! ## typePt : Pt100 RTD -/

/-- Macro `boardVoltage`, defined as 5 in the header. The build-time setting is
an argument of everything that depends on it; this is the value shipped. -/
def boardVoltage : Int := 5

/-- Macro `zeroCmv`: 1111 under `#if (boardVoltage == 5)`, 733 under `#else`. -/
def zeroCmv (boardVoltage : Int) : Int := if boardVoltage = 5 then 1111 else 733

/-- Macro `maxCrange`: 230 under `#if (boardVoltage == 5)`, 329 under `#else`. -/
def maxCrange (boardVoltage : Int) : Int := if boardVoltage = 5 then 230 else 329

/-- Class `typePt` for one build: the board-voltage setting it was compiled
with and its two static constants, whose values are given in thermocouple.cpp
and are therefore parameters. -/
structure typePt where
  boardVoltage : Int
  ptOffset : PFLOAT
  ptCoef : PFLOAT

namespace typePt

/-- Inline `virtual FLOAT mv_min() { return zeroCmv; }`. -/
def mv_min (p : typePt) : FLOAT := (zeroCmv p.boardVoltage : Int)

/-- Inline `virtual FLOAT mv_max() { return 2000; }`. -/
def mv_max (_ : typePt) : FLOAT := 2000

/-- Inline `virtual FLOAT C_max() { return maxCrange; }`. -/
def C_max (p : typePt) : FLOAT := (maxCrange p.boardVoltage : Int)

/-- Inline `virtual FLOAT C_min() { return 0; }`. -/
def C_min (_ : typePt) : FLOAT := 0

/-- Private member `bool CJC = false;` of `typePt`: the value of its
initialiser. It hides `tcBase::CJC` and is a different member. -/
def CJC (_ : typePt) : Bool := false

/-- Modelled from the spec: the body of `typePt::absTemp_C` (declared in the
header, defined in thermocouple.cpp): `(mV - offset) / coefficient`. -/
def absTemp_C (p : typePt) (mV : FLOAT) : FLOAT := (mV - p.ptOffset) / p.ptCoef

/-- Modelled from the spec: the body of `typePt::absMV_C` (declared in the
header, defined in thermocouple.cpp): `tempC * coefficient + offset`. -/
def absMV_C (p : typePt) (tempC : FLOAT) : FLOAT := tempC * p.ptCoef + p.ptOffset

/-- The object seen through its base class: the overriding virtual methods. -/
def toBase (p : typePt) : tcBase :=
  { mv_min := p.mv_min, mv_max := p.mv_max, C_max := p.C_max, C_min := p.C_min,
    absTemp_C := p.absTemp_C, absMV_C := p.absMV_C }

end typePt

/-! ## Tables in program memory -/

/-- Declared dimensions of a static table `PFLOAT name[nrows][ncols]`: in the
coefficient tables a row is a polynomial term and a column a sub-range; in the
range tables row 0 holds the lower and row 1 the upper bounds. -/
structure Dims where
  nrows : Nat
  ncols : Nat

/-- An index pair `[i][j]` lies within the declared dimensions. -/
def Dims.inBounds (d : Dims) (i j : Nat) : Prop := i < d.nrows ∧ j < d.ncols

instance Dims.decidableInBounds (d : Dims) (i j : Nat) : Decidable (d.inBounds i j) := by
  unfold Dims.inBounds; infer_instance

/-- A PROGMEM table of declared dimensions `d`. -/
structure ProgTable (d : Dims) where
  cells : Fin d.nrows → Fin d.ncols → PFLOAT

/-- Read `pgm_read_float_near( &t[i][j] )`: the cell when the index pair is
within the declared dimensions of `t`, nothing for an out-of-bounds read. -/
def pgm_read_float_near {d : Dims} (t : ProgTable d) (i j : Nat) : Option FLOAT :=
  if h : d.inBounds i j then some (t.cells ⟨i, h.1⟩ ⟨j, h.2⟩) else none

/-- Shape of a coefficient table against the range table that partitions
it: 2 or 3 sub-range columns, at most 15 polynomial-term rows, and as many
sub-range columns as the range table. -/
def Dims.partitionedBy (coeff range : Dims) : Prop :=
  (coeff.ncols = 2 ∨ coeff.ncols = 3) ∧ coeff.nrows ≤ 15 ∧ coeff.ncols = range.ncols

instance Dims.decidablePartitionedBy (coeff range : Dims) :
    Decidable (coeff.partitionedBy range) := by
  unfold Dims.partitionedBy; infer_instance

/-! ## typeK, typeT, typeJ : ITS-90 thermocouples -/

namespace typeK

/-- Declaration `static PROGMEM const PFLOAT coeff_inv[10][3];`. -/
def coeff_inv_dims : Dims := ⟨10, 3⟩

/-- Declaration `static PROGMEM const PFLOAT range_inv[2][3];`. -/
def range_inv_dims : Dims := ⟨2, 3⟩

/-- Declaration `static PROGMEM const PFLOAT coeff_dir[11][2];`. -/
def coeff_dir_dims : Dims := ⟨11, 2⟩

/-- Declaration `static PROGMEM const PFLOAT range_dir[2][2];`. -/
def range_dir_dims : Dims := ⟨2, 2⟩

/-- The static tables of class `typeK` (`a[3]` included). Their cells are given in
thermocouple.cpp and are therefore parameters. -/
structure Tables where
  coeff_inv : ProgTable coeff_inv_dims
  range_inv : ProgTable range_inv_dims
  coeff_dir : ProgTable coeff_dir_dims
  range_dir : ProgTable range_dir_dims
  a : Fin 3 → PFLOAT

/-- Inline `mv_min(){ return pgm_read_float_near( &range_inv[0][0] ); }`. -/
def mv_min (t : Tables) : Option FLOAT := pgm_read_float_near t.range_inv 0 0

/-- Inline `mv_max(){ return pgm_read_float_near( &range_inv[1][2] ); }`. -/
def mv_max (t : Tables) : Option FLOAT := pgm_read_float_near t.range_inv 1 2

/-- Inline `C_max(){ return pgm_read_float_near( &range_dir[1][1] ); }`. -/
def C_max (t : Tables) : Option FLOAT := pgm_read_float_near t.range_dir 1 1

/-- Inline `C_min(){ return pgm_read_float_near( &range_dir[0][0] ); }`. -/
def C_min (t : Tables) : Option FLOAT := pgm_read_float_near t.range_dir 0 0

/-- Private member `bool CJC = true;` of the class: the value of its
initialiser. It hides `tcBase::CJC` and is a different member. -/
def CJC (_ : Tables) : Bool := true

end typeK

namespace typeT

/-- Declaration `static PROGMEM const PFLOAT coeff_inv[8][2];`. -/
def coeff_inv_dims : Dims := ⟨8, 2⟩

/-- Declaration `static PROGMEM const PFLOAT range_inv[2][2];`. -/
def range_inv_dims : Dims := ⟨2, 2⟩

/-- Declaration `static PROGMEM const PFLOAT coeff_dir[15][2];`. -/
def coeff_dir_dims : Dims := ⟨15, 2⟩

/-- Declaration `static PROGMEM const PFLOAT range_dir[2][2];`. -/
def range_dir_dims : Dims := ⟨2, 2⟩

/-- The static tables of class `typeT`. Their cells are given in
thermocouple.cpp and are therefore parameters. -/
structure Tables where
  coeff_inv : ProgTable coeff_inv_dims
  range_inv : ProgTable range_inv_dims
  coeff_dir : ProgTable coeff_dir_dims
  range_dir : ProgTable range_dir_dims

/-- Inline `mv_min(){ return pgm_read_float_near( &range_inv[0][0] ); }`. -/
def mv_min (t : Tables) : Option FLOAT := pgm_read_float_near t.range_inv 0 0

/-- Inline `mv_max(){ return pgm_read_float_near( &range_inv[1][1] ); }`. -/
def mv_max (t : Tables) : Option FLOAT := pgm_read_float_near t.range_inv 1 1

/-- Inline `C_max(){ return pgm_read_float_near( &range_dir[1][1] ); }`. -/
def C_max (t : Tables) : Option FLOAT := pgm_read_float_near t.range_dir 1 1

/-- Inline `C_min(){ return pgm_read_float_near( &range_dir[0][0] ); }`. -/
def C_min (t : Tables) : Option FLOAT := pgm_read_float_near t.range_dir 0 0

/-- Private member `bool CJC = true;` of the class: the value of its
initialiser. It hides `tcBase::CJC` and is a different member. -/
def CJC (_ : Tables) : Bool := true

end typeT

namespace typeJ

/-- Declaration `static PROGMEM const PFLOAT coeff_inv[9][3];`. -/
def coeff_inv_dims : Dims := ⟨9, 3⟩

/-- Declaration `static PROGMEM const PFLOAT range_inv[2][3];`. -/
def range_inv_dims : Dims := ⟨2, 3⟩

/-- Declaration `static PROGMEM const PFLOAT coeff_dir[9][2];`. -/
def coeff_dir_dims : Dims := ⟨9, 2⟩

/-- Declaration `static PROGMEM const PFLOAT range_dir[2][2];`. -/
def range_dir_dims : Dims := ⟨2, 2⟩

/-- The static tables of class `typeJ`. Their cells are given in
thermocouple.cpp and are therefore parameters. -/
structure Tables where
  coeff_inv : ProgTable coeff_inv_dims
  range_inv : ProgTable range_inv_dims
  coeff_dir : ProgTable coeff_dir_dims
  range_dir : ProgTable range_dir_dims

/-- Inline `mv_min(){ return pgm_read_float_near( &range_inv[0][0] ); }`. -/
def mv_min (t : Tables) : Option FLOAT := pgm_read_float_near t.range_inv 0 0

/-- Inline `mv_max(){ return pgm_read_float_near( &range_inv[1][2] ); }`. -/
def mv_max (t : Tables) : Option FLOAT := pgm_read_float_near t.range_inv 1 2

/-- Inline `C_max(){ return pgm_read_float_near( &range_dir[1][1] ); }`. -/
def C_max (t : Tables) : Option FLOAT := pgm_read_float_near t.range_dir 1 1

/-- Inline `C_min(){ return pgm_read_float_near( &range_dir[0][0] ); }`. -/
def C_min (t : Tables) : Option FLOAT := pgm_read_float_near t.range_dir 0 0

/-- Private member `bool CJC = true;` of the class: the value of its
initialiser. It hides `tcBase::CJC` and is a different member. -/
def CJC (_ : Tables) : Bool := true

end typeJ

/-! ## Range tables as data -/

/-- Both reads yield a cell and the first cell is at most the second. -/
def optLE : Option FLOAT → Option FLOAT → Bool
  | some a, some b => decide (a ≤ b)
  | _, _ => false

/-- Modelled from the spec: the invariant of the data model on a range table,
whose cells are given in thermocouple.cpp. Column `j` is a sub-range with
lower bound `t[0][j]` and upper bound `t[1][j]`; every sub-range has its lower
bound at most its upper bound, and consecutive sub-ranges are contiguous: the
upper bound of one is the lower bound of the next. -/
def ProgTable.subrangesContiguous {d : Dims} (t : ProgTable d) : Prop :=
  ∀ j, j < d.ncols →
    optLE (pgm_read_float_near t 0 j) (pgm_read_float_near t 1 j) = true ∧
    (j + 1 < d.ncols → pgm_read_float_near t 1 j = pgm_read_float_near t 0 (j + 1))

instance ProgTable.decidableSubrangesContiguous {d : Dims} (t : ProgTable d) :
    Decidable t.subrangesContiguous := by
  unfold ProgTable.subrangesContiguous; infer_instance

/-- The Celsius check holds exactly on the inclusive interval `[C_min, C_max]`. -/
theorem tcBase.inrange_C_eq_true (tc : tcBase) (tempC : FLOAT) :
    tc.inrange_C tempC = true ↔ tc.C_min ≤ tempC ∧ tempC ≤ tc.C_max := by
  simp [tcBase.inrange_C]

/-- The Celsius check fails below `C_min`. -/
theorem tcBase.inrange_C_eq_false_of_lt (tc : tcBase) (tempC : FLOAT)
    (h : tempC < tc.C_min) : tc.inrange_C tempC = false := by
  simp [tcBase.inrange_C, h]

/-- Both values the macro can receive from a `bool` are at most `(1 - 32) / 1.8`. -/
theorem F_TO_C_ofBool_le (b : Bool) : F_TO_C (ofBool b) ≤ (1 - 32) / 1.8 := by
  cases b <;> norm_num [F_TO_C, ofBool]

/-- A read succeeds exactly when the index pair is within the declared dimensions. -/
theorem pgm_read_float_near_isSome {d : Dims} (t : ProgTable d) (i j : Nat) :
    (pgm_read_float_near t i j).isSome = true ↔ d.inBounds i j := by
  unfold pgm_read_float_near
  split <;> simp_all

/-- With the base flag set, compensation converts `coldC` to a voltage with
`absMV_C`, adds it to `mV` and passes the sum to `absTemp_C`. -/
theorem tcBase.Temp_C_of_CJC (tc : tcBase) (mV coldC : FLOAT) :
    tc.Temp_C true mV coldC = tc.absTemp_C (mV + tc.absMV_C coldC) := by
  simp [tcBase.Temp_C]

/-- With the base flag set, a reading that was shifted by the caller and passed
with reference 0 is shifted once more, by `absMV_C 0`. -/
theorem tcBase.Temp_C_shifted (tc : tcBase) (mV coldC : FLOAT) :
    tc.Temp_C true (mV + tc.absMV_C coldC) 0 =
      tc.absTemp_C (mV + tc.absMV_C coldC + tc.absMV_C 0) := by
  simp [tcBase.Temp_C]

/-- With the base flag set and `absMV_C 0 = 0`, compensating for `coldC` is
the same as shifting the reading and passing reference 0. -/
theorem tcBase.Temp_C_eq_shifted_of_absMV_C_zero (tc : tcBase)
    (h0 : tc.absMV_C 0 = 0) (mV coldC : FLOAT) :
    tc.Temp_C true mV coldC = tc.Temp_C true (mV + tc.absMV_C coldC) 0 := by
  rw [tcBase.Temp_C_shifted tc, tcBase.Temp_C_of_CJC tc, h0, add_zero]

/-- With the base flag clear, the reference is ignored. -/
theorem tcBase.Temp_C_of_not_CJC (tc : tcBase) (mV coldC : FLOAT) :
    tc.Temp_C false mV coldC = tc.absTemp_C mV := by
  simp [tcBase.Temp_C]

/-! ## Unit conversion -/

/-- C7. Over exact arithmetic (1.8 = 9/5) the macros `C_TO_F` and `F_TO_C` are
mutual inverses: converting a Celsius temperature to Fahrenheit and back gives
the temperature again, and likewise starting from Fahrenheit. -/
theorem C_TO_F_F_TO_C_inverse :
    (∀ T : FLOAT, F_TO_C (C_TO_F T) = T) ∧ (∀ F : FLOAT, C_TO_F (F_TO_C F) = F) := by
  constructor
  · intro T
    unfold F_TO_C C_TO_F
    norm_num
  · intro F
    unfold F_TO_C C_TO_F
    norm_num
    ring

/-! ## Range validation -/

/-- C3. For any model the voltage check is true exactly when
`mv_min() ≤ mV ≤ mv_max()`, both bounds inclusive; for the Linear model that
is exactly the interval [0, 2000], for the Pt model built with board voltage 5
exactly [1111, 2000]. -/
theorem inrange_mV_iff_envelope :
    (∀ (tc : tcBase) (mV : FLOAT),
        tc.inrange_mV mV = true ↔ tc.mv_min ≤ mV ∧ mV ≤ tc.mv_max) ∧
    (∀ (l : tcLinear) (mV : FLOAT),
        l.toBase.inrange_mV mV = true ↔ 0 ≤ mV ∧ mV ≤ 2000) ∧
    (∀ (ptOffset ptCoef : PFLOAT) (mV : FLOAT),
        (typePt.mk 5 ptOffset ptCoef).toBase.inrange_mV mV = true ↔
          1111 ≤ mV ∧ mV ≤ 2000) := by
  refine ⟨?_, ?_, ?_⟩
  · intro tc mV
    simp [tcBase.inrange_mV]
  · intro l mV
    simp only [tcBase.inrange_mV, tcLinear.toBase, tcLinear.mv_min, tcLinear.mv_max,
      Bool.and_eq_true, decide_eq_true_eq]
    norm_num
  · intro ptOffset ptCoef mV
    simp only [tcBase.inrange_mV, typePt.toBase, typePt.mv_min, typePt.mv_max, zeroCmv,
      Bool.and_eq_true, decide_eq_true_eq]
    norm_num

/-! ## Concrete models -/

/-- C4. For the Linear model constructed with a non-zero slope `mVperC`, for
every input, `absTemp_C(mV) = mV / mVperC` and `absMV_C(C) = C * mVperC`. -/
theorem tcLinear_conversions (mVperC : FLOAT) (_hslope : mVperC ≠ 0) :
    (∀ mV : FLOAT, (tcLinear.mk mVperC).absTemp_C mV = mV / mVperC) ∧
    (∀ C : FLOAT, (tcLinear.mk mVperC).absMV_C C = C * mVperC) :=
  ⟨fun _ => rfl, fun _ => rfl⟩

/-- With `mVperC = 40`: `absTemp_C(80) = 2` and `absMV_C(2) = 80`. -/
theorem tcLinear_conversions_at_40 :
    (40 : FLOAT) ≠ 0 ∧ (tcLinear.mk 40).absTemp_C 80 = 2 ∧ (tcLinear.mk 40).absMV_C 2 = 80 := by
  have h := tcLinear_conversions 40 (by norm_num)
  refine ⟨by norm_num, ?_, ?_⟩
  · rw [h.1]; norm_num
  · rw [h.2]; norm_num

/-- C5. The cold-junction-compensation flag that each concrete class declares
is fixed by the type of the model, whatever the object (slope, board voltage,
constants, table contents): false for every Linear and every Pt object, true
for every typeK, typeT and typeJ object. -/
theorem CJC_fixed_by_type :
    (∀ l : tcLinear, l.CJC = false) ∧
    (∀ p : typePt, p.CJC = false) ∧
    (∀ t : typeK.Tables, typeK.CJC t = true) ∧
    (∀ t : typeT.Tables, typeT.CJC t = true) ∧
    (∀ t : typeJ.Tables, typeJ.CJC t = true) :=
  ⟨fun _ => rfl, fun _ => rfl, fun _ => rfl, fun _ => rfl, fun _ => rfl⟩

/-- C9. As written, `inrange_F(tempF)` depends on `tempF` only through the
boolean `inrange_C(tempF)`: it equals `inrange_C((b - 32) / 1.8)` with `b` 1
when `inrange_C(tempF)` holds and 0 otherwise. Hence for any model whose
`C_min()` exceeds `(1 - 32) / 1.8`, in particular every Linear and every Pt
object, `inrange_F(tempF)` is false for every `tempF`. -/
theorem inrange_F_as_written :
    (∀ (tc : tcBase) (tempF : FLOAT),
        tc.inrange_F tempF =
          tc.inrange_C (((if tc.inrange_C tempF = true then 1 else 0) - 32) / 1.8)) ∧
    (∀ tc : tcBase, (1 - 32) / 1.8 < tc.C_min → ∀ tempF : FLOAT, tc.inrange_F tempF = false) ∧
    (∀ (l : tcLinear) (tempF : FLOAT), l.toBase.inrange_F tempF = false) ∧
    (∀ (p : typePt) (tempF : FLOAT), p.toBase.inrange_F tempF = false) := by
  have key : ∀ tc : tcBase, (1 - 32) / 1.8 < tc.C_min →
      ∀ tempF : FLOAT, tc.inrange_F tempF = false := by
    intro tc h tempF
    exact tc.inrange_C_eq_false_of_lt _ (lt_of_le_of_lt (F_TO_C_ofBool_le _) h)
  refine ⟨?_, key, ?_, ?_⟩
  · intro tc tempF
    unfold tcBase.inrange_F F_TO_C ofBool
    cases tc.inrange_C tempF <;> norm_num
  · intro l tempF
    exact key l.toBase (by norm_num [tcLinear.toBase, tcLinear.C_min]) tempF
  · intro p tempF
    exact key p.toBase (by norm_num [typePt.toBase, typePt.C_min]) tempF

/-- The Linear model with slope 40 rejects 212 degrees Fahrenheit, and 32. -/
theorem inrange_F_as_written_at_linear_40 :
    (1 - 32) / 1.8 < (tcLinear.mk 40).toBase.C_min ∧
    (tcLinear.mk 40).toBase.inrange_F 212 = false ∧
    (tcLinear.mk 40).toBase.inrange_F 32 = false :=
  have h : (1 - 32) / 1.8 < (tcLinear.mk 40).toBase.C_min := by
    norm_num [tcLinear.toBase, tcLinear.C_min]
  ⟨h, inrange_F_as_written.2.1 _ h 212, inrange_F_as_written.2.1 _ h 32⟩

/-- C1, evaluated on the code. For the Pt model as shipped (board voltage 5),
212 degrees Fahrenheit is 100 degrees Celsius, inside the envelope [0, 230], so
the Celsius check of the converted value is true; `inrange_F(212)` as written
is false. -/
theorem inrange_F_Pt_at_212 (ptOffset ptCoef : PFLOAT) :
    F_TO_C 212 = 100 ∧
    (typePt.mk boardVoltage ptOffset ptCoef).toBase.inrange_C (F_TO_C 212) = true ∧
    (typePt.mk boardVoltage ptOffset ptCoef).toBase.inrange_F 212 = false := by
  have hF : F_TO_C 212 = 100 := by norm_num [F_TO_C]
  refine ⟨hF, ?_, ?_⟩
  · rw [hF, tcBase.inrange_C_eq_true]
    norm_num [typePt.toBase, typePt.C_min, typePt.C_max, maxCrange, boardVoltage]
  · apply tcBase.inrange_C_eq_false_of_lt
    refine lt_of_le_of_lt (F_TO_C_ofBool_le _) ?_
    norm_num [typePt.toBase, typePt.C_min]

/-! ## Table shapes and table reads -/

/-- C8. For each of typeK, typeT and typeJ, both coefficient tables have 2 or 3
sub-range columns and at most 15 polynomial-term rows, and each has exactly as
many sub-range columns as the range table that partitions it. -/
theorem coeff_tables_shape :
    typeK.coeff_inv_dims.partitionedBy typeK.range_inv_dims ∧
    typeK.coeff_dir_dims.partitionedBy typeK.range_dir_dims ∧
    typeT.coeff_inv_dims.partitionedBy typeT.range_inv_dims ∧
    typeT.coeff_dir_dims.partitionedBy typeT.range_dir_dims ∧
    typeJ.coeff_inv_dims.partitionedBy typeJ.range_inv_dims ∧
    typeJ.coeff_dir_dims.partitionedBy typeJ.range_dir_dims := by
  simp [Dims.partitionedBy, typeK.coeff_inv_dims, typeK.range_inv_dims, typeK.coeff_dir_dims,
    typeK.range_dir_dims, typeT.coeff_inv_dims, typeT.range_inv_dims, typeT.coeff_dir_dims,
    typeT.range_dir_dims, typeJ.coeff_inv_dims, typeJ.range_inv_dims, typeJ.coeff_dir_dims,
    typeJ.range_dir_dims]

/-- C10. For each of typeK, typeT and typeJ and whatever the tables hold, the
four envelope accessors read within the declared dimensions of their table
(every read yields a cell); `mv_min` and `C_min` read the first column of row
0, `mv_max` and `C_max` the last column of row 1. -/
theorem envelope_reads_in_bounds :
    (∀ t : typeK.Tables,
      (typeK.mv_min t).isSome = true ∧ (typeK.mv_max t).isSome = true ∧
      (typeK.C_max t).isSome = true ∧ (typeK.C_min t).isSome = true ∧
      typeK.mv_min t = pgm_read_float_near t.range_inv 0 0 ∧
      typeK.mv_max t = pgm_read_float_near t.range_inv 1 (typeK.range_inv_dims.ncols - 1) ∧
      typeK.C_max t = pgm_read_float_near t.range_dir 1 (typeK.range_dir_dims.ncols - 1) ∧
      typeK.C_min t = pgm_read_float_near t.range_dir 0 0) ∧
    (∀ t : typeT.Tables,
      (typeT.mv_min t).isSome = true ∧ (typeT.mv_max t).isSome = true ∧
      (typeT.C_max t).isSome = true ∧ (typeT.C_min t).isSome = true ∧
      typeT.mv_min t = pgm_read_float_near t.range_inv 0 0 ∧
      typeT.mv_max t = pgm_read_float_near t.range_inv 1 (typeT.range_inv_dims.ncols - 1) ∧
      typeT.C_max t = pgm_read_float_near t.range_dir 1 (typeT.range_dir_dims.ncols - 1) ∧
      typeT.C_min t = pgm_read_float_near t.range_dir 0 0) ∧
    (∀ t : typeJ.Tables,
      (typeJ.mv_min t).isSome = true ∧ (typeJ.mv_max t).isSome = true ∧
      (typeJ.C_max t).isSome = true ∧ (typeJ.C_min t).isSome = true ∧
      typeJ.mv_min t = pgm_read_float_near t.range_inv 0 0 ∧
      typeJ.mv_max t = pgm_read_float_near t.range_inv 1 (typeJ.range_inv_dims.ncols - 1) ∧
      typeJ.C_max t = pgm_read_float_near t.range_dir 1 (typeJ.range_dir_dims.ncols - 1) ∧
      typeJ.C_min t = pgm_read_float_near t.range_dir 0 0) := by
  refine ⟨fun t => ?_, fun t => ?_, fun t => ?_⟩
  · refine ⟨?_, ?_, ?_, ?_, rfl, rfl, rfl, rfl⟩ <;>
      simp [typeK.mv_min, typeK.mv_max, typeK.C_max, typeK.C_min, pgm_read_float_near_isSome,
        Dims.inBounds, typeK.range_inv_dims, typeK.range_dir_dims]
  · refine ⟨?_, ?_, ?_, ?_, rfl, rfl, rfl, rfl⟩ <;>
      simp [typeT.mv_min, typeT.mv_max, typeT.C_max, typeT.C_min, pgm_read_float_near_isSome,
        Dims.inBounds, typeT.range_inv_dims, typeT.range_dir_dims]
  · refine ⟨?_, ?_, ?_, ?_, rfl, rfl, rfl, rfl⟩ <;>
      simp [typeJ.mv_min, typeJ.mv_max, typeJ.C_max, typeJ.C_min, pgm_read_float_near_isSome,
        Dims.inBounds, typeJ.range_inv_dims, typeJ.range_dir_dims]

end Thermocouple
